import Mathlib

/-!
# Verification of the documcp backend document-generation core

A shallow embedding of the documcp backend (Python) into Lean 4, covering:

* the domain models (`documcp/backend/domain/models.py`),
* the LM Studio generation client (`documcp/backend/services/llm_service.py`),
* the document-generation orchestrator
  (`documcp/backend/services/document_service.py`),
* the HTTP generate endpoint's validation layer
  (`documcp/backend/api/generation.py`), and
* the MCP tool handlers (`documcp/backend/mcp_server.py`).

External effects are made explicit parameters: the models-listing endpoint's
answer and the chat-completion endpoint's answer are inputs to the embedded
functions, wall-clock readings are passed in as rationals, and Python
exceptions become `Except` error values.  Sampling temperatures (Python
floats 0.3 / 0.5 / 0.7) are embedded as exact rationals; the claims only
compare these constants for equality, never compute with them.
-/

namespace Documcp

/-- Python's whitespace set for `str.strip`: space, tab, newline, carriage
return, vertical tab, form feed. -/
def isPythonSpace (c : Char) : Bool :=
  c = ' ' || c = '\t' || c = '\n' || c = '\x0d' || c = '\x0b' || c = '\x0c'

/-- Python `str.strip()`: drops leading and trailing whitespace. -/
def pythonStrip (s : String) : String :=
  ⟨((s.data.dropWhile isPythonSpace).reverse.dropWhile isPythonSpace).reverse⟩

/-- The closed enumeration `DocumentType` from `domain/models.py`. -/
inductive DocumentType where
  | PRD
  | WHAT_IS_THIS
  | README
deriving DecidableEq, Repr, BEq

/-- The string value of each enum member (`DocumentType(str, Enum)`). -/
def DocumentType.value : DocumentType → String
  | .PRD => "prd"
  | .WHAT_IS_THIS => "what_is_this"
  | .README => "readme"

/-- A JSON-like metadata value, standing in for Python `Any` in the
`Dict[str, Any]` metadata mappings the service builds. -/
inductive MetaValue where
  | bool (b : Bool)
  | str (s : String)
  | nat (n : Nat)
  | rat (q : ℚ)
  | null
deriving DecidableEq, Repr

/-- An ordered string-keyed mapping, standing in for a Python `dict`
(Python dicts preserve insertion order). -/
abbrev Metadata := List (String × MetaValue)

/-- `dict.update`: each key of `u` overrides an existing entry of `d` in
place, or is appended at the end when absent. -/
def dictUpdate (d u : Metadata) : Metadata :=
  u.foldl
    (fun acc kv =>
      if acc.any (fun p => p.1 = kv.1) then
        acc.map (fun p => if p.1 = kv.1 then kv else p)
      else
        acc ++ [kv])
    d

/-- `GenerationRequest` from `domain/models.py`.  `additional_context` is
`Optional[Dict[str, Any]]` with default `{}`; `None` and `{}` behave the
same everywhere (both are falsy), so both are embedded as `[]`. -/
structure GenerationRequest where
  input_text : String
  document_types : List DocumentType
  project_name : Option String
  additional_context : Metadata
deriving Repr

/-- `GeneratedDocument` from `domain/models.py`. -/
structure GeneratedDocument where
  document_type : DocumentType
  content : String
  metadata : Metadata
deriving DecidableEq, Repr

/-- `GenerationResponse` from `domain/models.py`.  `generation_time` is a
wall-clock float in Python, embedded as a rational. -/
structure GenerationResponse where
  documents : List GeneratedDocument
  generation_time : ℚ
  model_info : List (String × String)
deriving Repr

/-! ## Generation client (`services/llm_service.py`, `LMStudioService`) -/

/-- The mutable state of `LMStudioService`: endpoint base URL, resolved
model name, and the `_model_loaded` flag. -/
structure LMStudioState where
  base_url : String
  model_name : String
  model_loaded : Bool
deriving DecidableEq, Repr

/-- The observable outcome of `GET base_url/v1/models`: either the
connection fails (`httpx.ConnectError`), or a response arrives with a
status code and the list of model ids found under the `data` key. -/
inductive ModelsResult where
  | connectError
  | response (status : Nat) (models : List String)
deriving DecidableEq, Repr

/-- `LMStudioService.initialize`: probes the models-listing endpoint.
On a connect error or a non-200 status it raises; with a 200 status it
requires a non-empty model list, substitutes the first available model when
the configured one is absent, and sets `_model_loaded`. -/
def initializeLMStudio (st : LMStudioState) (r : ModelsResult) :
    Except String LMStudioState :=
  match r with
  | .connectError =>
      .error ("Cannot connect to LM Studio at " ++ st.base_url)
  | .response status available_models =>
      if status = 200 then
        match available_models with
        | m :: _ =>
            -- Use the first available model if our default is not found
            let name :=
              if st.model_name ∈ available_models then st.model_name else m
            .ok { st with model_name := name, model_loaded := true }
        | [] => .error "No models loaded in LM Studio"
      else
        .error ("Failed to connect to LM Studio: " ++ toString status)

/-- `LMStudioService.get_model_info`. -/
def getModelInfo (st : LMStudioState) : List (String × String) :=
  [("model_name", st.model_name),
   ("loaded", if st.model_loaded then "True" else "False"),
   ("service", "LM Studio"),
   ("base_url", st.base_url)]

/-! ### Prompt builder

Each Python prompt method is an f-string template with two holes: the
project-context phrase and the input text.  The embedding names the three
literal segments of each template (`…PromptPre`, `…PromptPost`) and the
context phrase (`…ProjectContext`); their concatenation in source order is
the method's return value.  Python truthiness: an empty `project_name`
string is falsy, so `some ""` yields the empty context phrase, exactly as
`f"..." if project_name else ""` does. -/

/-- The `project_context` local of `_get_prd_prompt`. -/
def prdProjectContext : Option String → String
  | some n => if n = "" then "" else "for project \x27" ++ n ++ "\x27"
  | none => ""

/-- The literal template text of `_get_prd_prompt` before `project_context`. -/
def prdPromptPre : String :=
  "You are a senior product manager. Create a comprehensive Product Requirements Document (PRD) "

/-- The literal template text of `_get_prd_prompt` after `project_context`,
with the `input_text` hole filled. -/
def prdPromptPost (input_text : String) : String :=
  " based on the following description.\n\nProject Description:\n"
    ++ input_text
    ++ "\n\nCreate a well-structured PRD with the following sections:\n1. Overview\n2. Goals & Objectives\n3. System Context\n4. Functional Requirements\n5. Non-Functional Requirements\n6. Deployment\n7. Extensibility\n8. Risks & Mitigation\n\nUse clear, professional language and include specific technical details where appropriate. Format the output as Markdown.\n\nPRD:"

/-- `LMStudioService._get_prd_prompt`. -/
def getPrdPrompt (input_text : String) (project_name : Option String) :
    String :=
  prdPromptPre ++ prdProjectContext project_name ++ prdPromptPost input_text

/-- The `project_context` local of `_get_what_is_this_prompt`. -/
def whatIsThisProjectContext : Option String → String
  | some n => if n = "" then "" else "called \x27" ++ n ++ "\x27"
  | none => ""

/-- The literal template text of `_get_what_is_this_prompt` before
`project_context`. -/
def whatIsThisPromptPre : String :=
  "You are a technical writer. Create an engaging \"What is this\" overview document "

/-- The literal template text of `_get_what_is_this_prompt` after
`project_context`, with the `input_text` hole filled. -/
def whatIsThisPromptPost (input_text : String) : String :=
  " based on the following description.\n\nProject Description:\n"
    ++ input_text
    ++ "\n\nCreate a compelling overview with the following sections:\n1. Vision (what this project aims to achieve)\n2. Core Value (why it matters, what problems it solves)\n3. Key Features (main capabilities)\n4. Target Users (who will use this)\n5. Tech Snapshot (high-level technical overview)\n6. Roadmap (future plans)\n7. Success Metrics\n\nUse an engaging, accessible tone while maintaining technical accuracy. Format the output as Markdown.\n\nWhat is this:"

/-- `LMStudioService._get_what_is_this_prompt`. -/
def getWhatIsThisPrompt (input_text : String) (project_name : Option String) :
    String :=
  whatIsThisPromptPre ++ whatIsThisProjectContext project_name
    ++ whatIsThisPromptPost input_text

/-- The `project_context` local of `_get_readme_prompt`. -/
def readmeProjectContext : Option String → String
  | some n => if n = "" then "" else "# " ++ n ++ "\n\n"
  | none => ""

/-- The literal template text of `_get_readme_prompt` before
`project_context`. -/
def readmePromptPre : String :=
  "You are a developer writing documentation. Create a comprehensive README.md "

/-- The literal template text of `_get_readme_prompt` after
`project_context`, with the `input_text` hole filled. -/
def readmePromptPost (input_text : String) : String :=
  "based on the following description.\n\nProject Description:\n"
    ++ input_text
    ++ "\n\nCreate a helpful README with the following sections:\n1. Project title and brief description\n2. Features\n3. Installation instructions\n4. Usage examples\n5. API documentation (if applicable)\n6. Configuration\n7. Development setup\n8. Contributing guidelines\n9. License\n\nUse clear, developer-friendly language with practical examples. Format the output as Markdown.\n\nREADME:"

/-- `LMStudioService._get_readme_prompt`. -/
def getReadmePrompt (input_text : String) (project_name : Option String) :
    String :=
  readmePromptPre ++ readmeProjectContext project_name
    ++ readmePromptPost input_text

/-- `LMStudioService._get_generation_prompt`: dispatch on the document
type (the `prompts` dict covers every enum member, so the lookup never
fails). -/
def getGenerationPrompt (input_text : String) (document_type : DocumentType)
    (project_name : Option String) : String :=
  match document_type with
  | .PRD => getPrdPrompt input_text project_name
  | .WHAT_IS_THIS => getWhatIsThisPrompt input_text project_name
  | .README => getReadmePrompt input_text project_name

/-- The JSON payload `LMStudioService.generate_document` posts to
`base_url/v1/chat/completions` (the single user message's content is the
built prompt). -/
structure CompletionCall where
  model : String
  prompt : String
  max_tokens : Nat
  temperature : ℚ
  stream : Bool
deriving DecidableEq, Repr

/-- The observable outcome of the completion POST: either the HTTP client
raises (connect error, timeout, malformed JSON, …), or a response arrives
with a status code, a body text, and the list of message contents under
the `choices` key. -/
inductive CompletionResult where
  | exn (msg : String)
  | response (status : Nat) (body : String) (choices : List String)
deriving DecidableEq, Repr

/-- `LMStudioService.generate_document`, instrumented: returns the call's
outcome together with the list of requests actually issued to the
completion endpoint (empty when the not-loaded guard fires, a singleton
otherwise).  On a 200 response the first choice's message content is
returned trimmed; a missing first choice is a Python `IndexError`, caught
and re-raised by the generic handler.  On a non-200 response the raised
message carries only the status code (the body is logged, not raised). -/
def generateDocumentCore (st : LMStudioState)
    (endpoint : CompletionCall → CompletionResult)
    (input_text : String) (document_type : DocumentType)
    (project_name : Option String) (max_length : Nat) (temperature : ℚ) :
    Except String String × List CompletionCall :=
  if st.model_loaded then
    let prompt := getGenerationPrompt input_text document_type project_name
    let call : CompletionCall :=
      { model := st.model_name, prompt := prompt, max_tokens := max_length,
        temperature := temperature, stream := false }
    match endpoint call with
    | .exn m => (.error m, [call])
    | .response status _body choices =>
        if status = 200 then
          match choices with
          | c :: _ => (.ok (pythonStrip c), [call])
          | [] => (.error "list index out of range", [call])
        else
          (.error ("LM Studio API error: " ++ toString status), [call])
  else
    (.error "LM Studio not connected. Call initialize() first.", [])

/-- The result component of `LMStudioService.generate_document`. -/
def generateDocument (st : LMStudioState)
    (endpoint : CompletionCall → CompletionResult)
    (input_text : String) (document_type : DocumentType)
    (project_name : Option String) (max_length : Nat) (temperature : ℚ) :
    Except String String :=
  (generateDocumentCore st endpoint input_text document_type project_name
    max_length temperature).1

/-! ## Orchestrator (`services/document_service.py`,
`DocumentGenerationService`) -/

/-- `DocumentGenerationService._get_max_length_for_type`: the `length_map`
dict lookup with default 2048. -/
def getMaxLengthForType (document_type : DocumentType) : Nat :=
  let length_map : List (DocumentType × Nat) :=
    [(.PRD, 3000), (.WHAT_IS_THIS, 2500), (.README, 2000)]
  (length_map.lookup document_type).getD 2048

/-- `DocumentGenerationService._get_temperature_for_type`: the `temp_map`
dict lookup with default 0.7.  The Python float literals 0.3 / 0.7 / 0.5
are embedded as the exact rationals they denote in the source text. -/
def getTemperatureForType (document_type : DocumentType) : ℚ :=
  let temp_map : List (DocumentType × ℚ) :=
    [(.PRD, 3/10), (.WHAT_IS_THIS, 7/10), (.README, 5/10)]
  (temp_map.lookup document_type).getD (7/10)

/-- `DocumentGenerationService._generate_single_document`: calls the
client with the per-type policy parameters; on success wraps the content
with the success metadata (merged with `additional_context` when that dict
is non-empty — Python `if additional_context:`); on failure re-raises.
`now` is the `time.time()` reading taken for `generated_at`. -/
def generateSingleDocument (st : LMStudioState)
    (endpoint : CompletionCall → CompletionResult)
    (input_text : String) (document_type : DocumentType)
    (project_name : Option String) (additional_context : Metadata)
    (now : ℚ) : Except String GeneratedDocument :=
  match generateDocument st endpoint input_text document_type project_name
      (getMaxLengthForType document_type)
      (getTemperatureForType document_type) with
  | .error e => .error e
  | .ok content =>
      let metadata : Metadata :=
        [("generated_at", .rat now),
         ("project_name",
           match project_name with
           | some n => .str n
           | none => .null),
         ("input_length", .nat input_text.length),
         ("output_length", .nat content.length),
         ("model", .str st.model_name)]
      let metadata :=
        if additional_context ≠ [] then dictUpdate metadata additional_context
        else metadata
      .ok { document_type := document_type, content := content,
            metadata := metadata }

/-- The error placeholder document the orchestrator builds for a slot
whose task raised (`isinstance(result, Exception)` branch). -/
def errorDocument (doc_type : DocumentType) (msg : String) :
    GeneratedDocument :=
  { document_type := doc_type,
    content := "# Error\n\nFailed to generate " ++ doc_type.value ++ ": " ++ msg,
    metadata := [("error", .bool true), ("error_message", .str msg)] }

/-- `DocumentGenerationService.generate_documents`.  One task per
requested type, in request order; `asyncio.gather(*tasks,
return_exceptions=True)` settles them all and returns outcomes in task
order, embedded by running each slot's generation with its own endpoint
behaviour `endpoints i`.  The result loop pairs outcome `i` with
`request.document_types[i]` (embedded as a `zip`, which pairs the same
elements because the outcome list has exactly one entry per requested
type).  `elapsed` is the `time.time() - start_time` reading. -/
def generateDocuments (st : LMStudioState)
    (endpoints : Nat → CompletionCall → CompletionResult)
    (now elapsed : ℚ) (request : GenerationRequest) : GenerationResponse :=
  let generated_docs : List (Except String GeneratedDocument) :=
    request.document_types.enum.map
      (fun p =>
        generateSingleDocument st (endpoints p.1) request.input_text p.2
          request.project_name request.additional_context now)
  let successful_docs : List GeneratedDocument :=
    (request.document_types.zip generated_docs).map
      (fun p =>
        match p.2 with
        | .error e => errorDocument p.1 e
        | .ok doc => doc)
  { documents := successful_docs, generation_time := elapsed,
    model_info := getModelInfo st }

/-- The per-slot lists of completion requests the orchestrator's tasks
issue: slot `i` runs `_generate_single_document` for
`request.document_types[i]`, whose client call passes the per-type policy
parameters; its issued requests are the instrumented second component of
`generateDocumentCore`. -/
def generateDocumentsCalls (st : LMStudioState)
    (endpoints : Nat → CompletionCall → CompletionResult)
    (request : GenerationRequest) : List (List CompletionCall) :=
  request.document_types.enum.map
    (fun p =>
      (generateDocumentCore st (endpoints p.1) request.input_text p.2
        request.project_name (getMaxLengthForType p.2)
        (getTemperatureForType p.2)).2)

/-- The literal template text before the `project_context` hole, per
document type. -/
def promptPre : DocumentType → String
  | .PRD => prdPromptPre
  | .WHAT_IS_THIS => whatIsThisPromptPre
  | .README => readmePromptPre

/-- The `project_context` phrase, per document type. -/
def projectContext : DocumentType → Option String → String
  | .PRD => prdProjectContext
  | .WHAT_IS_THIS => whatIsThisProjectContext
  | .README => readmeProjectContext

/-- The template text after the `project_context` hole (section skeleton
and trailing instructions), with the `input_text` hole filled, per
document type. -/
def promptPost : DocumentType → String → String
  | .PRD => prdPromptPost
  | .WHAT_IS_THIS => whatIsThisPromptPost
  | .README => readmePromptPost

/-! ## HTTP surface (`api/generation.py`) -/

/-- The status code of the endpoint's catch-all branch, which converts any
non-`HTTPException` escaping the handler into an internal server error
(`HTTPException(status_code=500, ...)`).  In this embedding the
orchestrator is a total function, so that branch is unreachable; the
constant records the server-error status the validation statuses are
contrasted with. -/
def internalServerErrorStatus : Nat := 500

/-- The `POST /api/v1/generate` handler `generate_documents` of
`api/generation.py`: validation first (`HTTPException` status and detail
on failure), then the orchestrator.  Python rejects when
`not request.input_text.strip()` — i.e. when the input trims to the empty
string — and when the raw length exceeds 10000. -/
def generateDocumentsEndpoint (st : LMStudioState)
    (endpoints : Nat → CompletionCall → CompletionResult)
    (now elapsed : ℚ) (request : GenerationRequest) :
    Except (Nat × String) GenerationResponse :=
  if pythonStrip request.input_text = "" then
    .error (400, "Input text cannot be empty")
  else if request.input_text.length > 10000 then
    .error (400, "Input text too long (max 10,000 characters)")
  else
    .ok (generateDocuments st endpoints now elapsed request)

/-! ## MCP tool surface (`mcp_server.py`) -/

/-- `mcp.types.TextContent` as the handlers build it (`type` is always
the literal `"text"`). -/
structure TextContent where
  type : String
  text : String
deriving DecidableEq, Repr

/-- Builds a `TextContent(type="text", text=...)`. -/
def mkText (s : String) : TextContent := ⟨"text", s⟩

/-- The argument mapping of a tool call, typed: each field is the value
found under the corresponding key (`arguments.get` with a default when
absent). -/
structure ToolArgs where
  input_text : Option String
  project_name : Option String
  document_types : Option (List String)
deriving Repr

/-- The string-to-enum conversion loop of `_handle_generate_documents`:
recognized strings are appended in order, anything else falls through the
`if`/`elif` chain and is dropped. -/
def parseDocTypes : List String → List DocumentType
  | [] => []
  | s :: rest =>
      if s = "prd" then .PRD :: parseDocTypes rest
      else if s = "what_is_this" then .WHAT_IS_THIS :: parseDocTypes rest
      else if s = "readme" then .README :: parseDocTypes rest
      else parseDocTypes rest

/-- The three document-type strings the combined tool's conversion loop
recognizes (the formalization's filter predicate characterizing
`parseDocTypes`). -/
def isRecognizedDocType (s : String) : Bool :=
  s = "prd" || s = "what_is_this" || s = "readme"

/-- `doc.document_type.value.replace("_", " ").title()` on the closed
enum. -/
def docTypeTitle : DocumentType → String
  | .PRD => "Prd"
  | .WHAT_IS_THIS => "What Is This"
  | .README => "Readme"

/-- `f"{response.generation_time:.2f}"`: the elapsed seconds rendered
with two decimal places (Python formats a float; the embedding rounds the
rational to hundredths). -/
def formatSeconds (q : ℚ) : String :=
  let n : Int := round (q * 100)
  toString (n / 100) ++ "." ++
    (let frac := (n % 100).toNat
     if frac < 10 then "0" ++ toString frac else toString frac)

/-- The environment a tool handler needs to run the orchestrator: the
client state plus the external endpoint behaviour and clock readings of
the one `generate_documents` call the handler makes. -/
structure OrchestratorEnv where
  st : LMStudioState
  endpoints : Nat → CompletionCall → CompletionResult
  now : ℚ
  elapsed : ℚ

/-- `_handle_generate_documents`: builds a `GenerationRequest` from the
arguments (unrecognized document-type strings dropped by
`parseDocTypes`), runs the orchestrator, renders one labelled section per
returned document, and prepends the batch summary line. -/
def handleGenerateDocuments (env : OrchestratorEnv) (args : ToolArgs) :
    List TextContent :=
  let input_text := args.input_text.getD ""
  let doc_types_str :=
    args.document_types.getD ["prd", "what_is_this", "readme"]
  let doc_types := parseDocTypes doc_types_str
  let request : GenerationRequest :=
    { input_text := input_text, document_types := doc_types,
      project_name := args.project_name, additional_context := [] }
  let response := generateDocuments env.st env.endpoints env.now env.elapsed
    request
  let results := response.documents.map
    (fun doc =>
      mkText ("## " ++ docTypeTitle doc.document_type ++ "\n\n"
        ++ doc.content ++ "\n\n---\n"))
  let summary := "Generated " ++ toString response.documents.length
    ++ " documents in " ++ formatSeconds response.generation_time
    ++ " seconds"
  mkText ("# Document Generation Complete\n\n" ++ summary ++ "\n\n")
    :: results

/-- `_handle_generate_single_document`. -/
def handleGenerateSingleDocument (env : OrchestratorEnv) (args : ToolArgs)
    (doc_type : DocumentType) : List TextContent :=
  let input_text := args.input_text.getD ""
  let request : GenerationRequest :=
    { input_text := input_text, document_types := [doc_type],
      project_name := args.project_name, additional_context := [] }
  let response := generateDocuments env.st env.endpoints env.now env.elapsed
    request
  match response.documents with
  | doc :: _ => [mkText doc.content]
  | [] => [mkText "No document generated"]

/-- `handle_call_tool`: guards on the global `document_service`, then
dispatches on the tool name; an unknown name yields a single text reply.
The Python `except Exception` branch wraps any exception from a handler
into `[TextContent(text=f"Error: {e}")]`; the embedded handlers are total
functions, so that branch is unreachable here — totality of this
definition is the embedded form of "never raises to the transport". -/
def handleCallTool (document_service : Option OrchestratorEnv)
    (name : String) (args : ToolArgs) : List TextContent :=
  match document_service with
  | none => [mkText "Error: Document service not initialized"]
  | some env =>
      if name = "generate_documents" then
        handleGenerateDocuments env args
      else if name = "generate_prd" then
        handleGenerateSingleDocument env args .PRD
      else if name = "generate_readme" then
        handleGenerateSingleDocument env args .README
      else if name = "generate_overview" then
        handleGenerateSingleDocument env args .WHAT_IS_THIS
      else
        [mkText ("Unknown tool: " ++ name)]

/-! ## Helper lemmas -/

/-- A successful `_generate_single_document` labels the produced document
with the requested type. -/
theorem generateSingleDocument_document_type_of_ok (st : LMStudioState)
    (endpoint : CompletionCall → CompletionResult) (input_text : String)
    (document_type : DocumentType) (project_name : Option String)
    (additional_context : Metadata) (now : ℚ) (d : GeneratedDocument)
    (h : generateSingleDocument st endpoint input_text document_type
      project_name additional_context now = .ok d) :
    d.document_type = document_type := by
  unfold generateSingleDocument at h
  cases hg : generateDocument st endpoint input_text document_type
      project_name (getMaxLengthForType document_type)
      (getTemperatureForType document_type) with
  | error e => rw [hg] at h; cases h
  | ok content =>
      rw [hg] at h
      simp only [Except.ok.injEq] at h
      rw [← h]

/-- How the settled outcome of slot `i` appears in the response's
document list, stated over the underlying list with an arbitrary
enumeration offset. -/
theorem generateDocuments_slot_aux (st : LMStudioState)
    (endpoints : Nat → CompletionCall → CompletionResult)
    (input_text : String) (project_name : Option String)
    (additional_context : Metadata) (now : ℚ) :
    ∀ (dts : List DocumentType) (n i : Nat),
      ((dts.zip ((List.enumFrom n dts).map
          (fun p => generateSingleDocument st (endpoints p.1) input_text p.2
            project_name additional_context now))).map
        (fun p =>
          match p.2 with
          | .error e => errorDocument p.1 e
          | .ok doc => doc))[i]? =
      (dts[i]?).map
        (fun dt =>
          match generateSingleDocument st (endpoints (n + i)) input_text dt
              project_name additional_context now with
          | .error e => errorDocument dt e
          | .ok doc => doc) := by
  intro dts
  induction dts with
  | nil => intro n i; simp
  | cons d rest ih =>
      intro n i
      cases i with
      | zero =>
          cases hg : generateSingleDocument st (endpoints n) input_text d
              project_name additional_context now <;>
            simp [List.enumFrom, hg]
      | succ j =>
          have harith : n + 1 + j = n + (j + 1) := by omega
          have := ih (n + 1) j
          rw [harith] at this
          simpa [List.enumFrom] using this

/-- Slot `i` of the response's document list: the requested type's
document on success, the error placeholder on failure. -/
theorem generateDocuments_documents_getElem (st : LMStudioState)
    (endpoints : Nat → CompletionCall → CompletionResult) (now elapsed : ℚ)
    (request : GenerationRequest) (i : Nat) :
    (generateDocuments st endpoints now elapsed request).documents[i]? =
      (request.document_types[i]?).map
        (fun dt =>
          match generateSingleDocument st (endpoints i) request.input_text dt
              request.project_name request.additional_context now with
          | .error e => errorDocument dt e
          | .ok doc => doc) := by
  have := generateDocuments_slot_aux st endpoints request.input_text
    request.project_name request.additional_context now
    request.document_types 0 i
  simpa [generateDocuments, List.enum] using this

/-- The response always has one document per requested type. -/
theorem generateDocuments_length (st : LMStudioState)
    (endpoints : Nat → CompletionCall → CompletionResult) (now elapsed : ℚ)
    (request : GenerationRequest) :
    (generateDocuments st endpoints now elapsed request).documents.length =
      request.document_types.length := by
  simp [generateDocuments]

/-! ## Claims -/

/-- C1: for every `GenerationRequest` — whatever the client state and
whatever each slot's completion endpoint does, including failing — the
orchestrator's response has exactly one document per requested type, and
slot `i`'s `document_type` is `request.document_types[i]` (so duplicates
each get their own slot and order is preserved): the response's
`document_type` projection is the requested list itself. -/
theorem generate_documents_one_slot_per_kind_in_order (st : LMStudioState)
    (endpoints : Nat → CompletionCall → CompletionResult) (now elapsed : ℚ)
    (request : GenerationRequest) :
    (generateDocuments st endpoints now elapsed request).documents.length =
      request.document_types.length ∧
    (generateDocuments st endpoints now elapsed request).documents.map
        GeneratedDocument.document_type = request.document_types := by
  constructor
  · exact generateDocuments_length st endpoints now elapsed request
  · apply List.ext_getElem?
    intro i
    rw [List.getElem?_map,
      generateDocuments_documents_getElem st endpoints now elapsed request i]
    cases hdt : request.document_types[i]? with
    | none => rfl
    | some dt =>
        simp only [Option.map_some']
        cases hg : generateSingleDocument st (endpoints i) request.input_text
            dt request.project_name request.additional_context now with
        | error e => rfl
        | ok doc =>
            simpa using
              generateSingleDocument_document_type_of_ok st (endpoints i)
                request.input_text dt request.project_name
                request.additional_context now doc hg

/-- C2: per-slot failure isolation.  If the generation task for slot `i`
raises with message `e`, the orchestrator does not raise: slot `i` of the
response is the error placeholder, whose content is the human-readable
message and whose metadata carries the error flag and the error text; if
the task for slot `i` succeeds, its document sits untouched in slot `i`
regardless of what other slots did. -/
theorem generate_documents_isolates_per_slot_failures (st : LMStudioState)
    (endpoints : Nat → CompletionCall → CompletionResult) (now elapsed : ℚ)
    (request : GenerationRequest) (i : Nat) (dt : DocumentType)
    (hdt : request.document_types[i]? = some dt) :
    (∀ e,
      generateSingleDocument st (endpoints i) request.input_text dt
          request.project_name request.additional_context now = .error e →
      (generateDocuments st endpoints now elapsed request).documents[i]? =
          some (errorDocument dt e) ∧
      (errorDocument dt e).content =
          "# Error\n\nFailed to generate " ++ dt.value ++ ": " ++ e ∧
      (errorDocument dt e).metadata.lookup "error" = some (.bool true) ∧
      (errorDocument dt e).metadata.lookup "error_message" =
          some (.str e)) ∧
    (∀ d,
      generateSingleDocument st (endpoints i) request.input_text dt
          request.project_name request.additional_context now = .ok d →
      (generateDocuments st endpoints now elapsed request).documents[i]? =
          some d) := by
  constructor
  · intro e he
    refine ⟨?_, rfl, rfl, rfl⟩
    rw [generateDocuments_documents_getElem st endpoints now elapsed request i,
      hdt]
    simp [he]
  · intro d hd
    rw [generateDocuments_documents_getElem st endpoints now elapsed request i,
      hdt]
    simp [hd]

/-- Witness for C2: a two-slot request where slot 0's endpoint raises
`boom` and slot 1's endpoint succeeds; slot 0 is the error placeholder
and slot 1 keeps its successful document. -/
theorem generate_documents_isolates_per_slot_failures_witness :
    (generateDocuments ⟨"http://localhost:1234", "local-model", true⟩
        (fun i _ => if i = 0 then .exn "boom" else .response 200 "" [" ok "])
        0 0
        { input_text := "desc", document_types := [.PRD, .README],
          project_name := none, additional_context := [] }).documents[0]? =
      some (errorDocument .PRD "boom") ∧
    (generateDocuments ⟨"http://localhost:1234", "local-model", true⟩
        (fun i _ => if i = 0 then .exn "boom" else .response 200 "" [" ok "])
        0 0
        { input_text := "desc", document_types := [.PRD, .README],
          project_name := none, additional_context := [] }).documents[1]? =
      some
        { document_type := .README, content := "ok",
          metadata :=
            [("generated_at", .rat 0), ("project_name", .null),
             ("input_length", .nat 4), ("output_length", .nat 2),
             ("model", .str "local-model")] } := by
  constructor
  · exact
      ((generate_documents_isolates_per_slot_failures
        ⟨"http://localhost:1234", "local-model", true⟩
        (fun i _ => if i = 0 then .exn "boom" else .response 200 "" [" ok "])
        0 0
        { input_text := "desc", document_types := [.PRD, .README],
          project_name := none, additional_context := [] }
        0 .PRD rfl).1 "boom" rfl).1
  · exact
      (generate_documents_isolates_per_slot_failures
        ⟨"http://localhost:1234", "local-model", true⟩
        (fun i _ => if i = 0 then .exn "boom" else .response 200 "" [" ok "])
        0 0
        { input_text := "desc", document_types := [.PRD, .README],
          project_name := none, additional_context := [] }
        1 .README rfl).2 _ rfl

/-- C3: initialization raises a connectivity error when the
models-listing endpoint is unreachable, raises a no-model error when the
endpoint answers with an empty model list, and otherwise succeeds with
the loaded flag set; when the configured default model id is absent from
the available ids, the first available id is silently substituted. -/
theorem initialize_connectivity_no_model_and_substitution
    (st : LMStudioState) :
    (initializeLMStudio st .connectError =
      .error ("Cannot connect to LM Studio at " ++ st.base_url)) ∧
    (initializeLMStudio st (.response 200 []) =
      .error "No models loaded in LM Studio") ∧
    (∀ m ms,
      initializeLMStudio st (.response 200 (m :: ms)) =
        .ok { st with
              model_name :=
                if st.model_name ∈ m :: ms then st.model_name else m,
              model_loaded := true }) ∧
    (∀ m ms, st.model_name ∉ m :: ms →
      initializeLMStudio st (.response 200 (m :: ms)) =
        .ok { st with model_name := m, model_loaded := true }) := by
  refine ⟨rfl, rfl, fun m ms => rfl, fun m ms h => ?_⟩
  simp [initializeLMStudio, h]

/-- Witness for C3: a fresh client configured with `local-model` against
an endpoint offering only `mistral` initializes successfully, loaded,
with `mistral` silently substituted. -/
theorem initialize_substitution_witness :
    ("local-model" ∉ (["mistral"] : List String)) ∧
    initializeLMStudio ⟨"http://localhost:1234", "local-model", false⟩
        (.response 200 ["mistral"]) =
      .ok ⟨"http://localhost:1234", "mistral", true⟩ :=
  ⟨by decide,
    (initialize_connectivity_no_model_and_substitution
      ⟨"http://localhost:1234", "local-model", false⟩).2.2.2
      "mistral" [] (by decide)⟩

/-- C4: a generation call on a client whose loaded flag is false fails
with the not-initialized message and issues no request to the completion
endpoint (the instrumented request list is empty). -/
theorem generate_document_requires_initialization (st : LMStudioState)
    (endpoint : CompletionCall → CompletionResult) (input_text : String)
    (document_type : DocumentType) (project_name : Option String)
    (max_length : Nat) (temperature : ℚ)
    (h : st.model_loaded = false) :
    generateDocument st endpoint input_text document_type project_name
        max_length temperature =
      .error "LM Studio not connected. Call initialize() first." ∧
    (generateDocumentCore st endpoint input_text document_type project_name
        max_length temperature).2 = [] := by
  unfold generateDocument generateDocumentCore
  rw [h]
  exact ⟨rfl, rfl⟩

/-- Witness for C4: a concrete un-initialized client rejects a concrete
generation call and issues nothing. -/
theorem generate_document_requires_initialization_witness :
    generateDocument ⟨"http://localhost:1234", "local-model", false⟩
        (fun _ => .response 200 "" ["hi"]) "desc" .PRD none 3000 (3/10) =
      .error "LM Studio not connected. Call initialize() first." ∧
    (generateDocumentCore ⟨"http://localhost:1234", "local-model", false⟩
        (fun _ => .response 200 "" ["hi"]) "desc" .PRD none 3000
        (3/10)).2 = [] :=
  generate_document_requires_initialization
    ⟨"http://localhost:1234", "local-model", false⟩
    (fun _ => .response 200 "" ["hi"]) "desc" .PRD none 3000 (3/10) rfl

/-- The requests issued by one client call: none when the not-loaded
guard fires, exactly one — built from the state, prompt and the two
sampling parameters, before the endpoint answers — otherwise.  In
particular the issued request does not depend on the endpoint's
behaviour. -/
theorem generateDocumentCore_calls (st : LMStudioState)
    (endpoint : CompletionCall → CompletionResult) (input_text : String)
    (document_type : DocumentType) (project_name : Option String)
    (max_length : Nat) (temperature : ℚ) :
    (generateDocumentCore st endpoint input_text document_type project_name
        max_length temperature).2 =
      if st.model_loaded then
        [{ model := st.model_name,
           prompt := getGenerationPrompt input_text document_type
             project_name,
           max_tokens := max_length, temperature := temperature,
           stream := false }]
      else [] := by
  unfold generateDocumentCore
  cases h : st.model_loaded with
  | false => rfl
  | true =>
      simp only [if_true]
      cases hep : endpoint
          { model := st.model_name,
            prompt := getGenerationPrompt input_text document_type
              project_name,
            max_tokens := max_length, temperature := temperature,
            stream := false } with
      | exn m => rfl
      | response status body choices =>
          by_cases hs : status = 200
          · cases choices <;> simp [hs]
          · simp [hs]

/-- `getElem?` through `enumFrom` followed by `map`. -/
theorem enumFrom_map_getElem? {α β : Type} (f : Nat × α → β) :
    ∀ (l : List α) (n i : Nat),
      ((List.enumFrom n l).map f)[i]? =
        (l[i]?).map (fun a => f (n + i, a)) := by
  intro l
  induction l with
  | nil => intro n i; simp
  | cons a rest ih =>
      intro n i
      cases i with
      | zero => simp [List.enumFrom]
      | succ j =>
          have harith : n + 1 + j = n + (j + 1) := by omega
          have := ih (n + 1) j
          rw [harith] at this
          simpa [List.enumFrom] using this

/-- Slot `i`'s issued requests, as a function of the slot's document
type. -/
theorem generateDocumentsCalls_getElem (st : LMStudioState)
    (endpoints : Nat → CompletionCall → CompletionResult)
    (request : GenerationRequest) (i : Nat) :
    (generateDocumentsCalls st endpoints request)[i]? =
      (request.document_types[i]?).map
        (fun dt =>
          if st.model_loaded then
            [{ model := st.model_name,
               prompt := getGenerationPrompt request.input_text dt
                 request.project_name,
               max_tokens := getMaxLengthForType dt,
               temperature := getTemperatureForType dt,
               stream := false }]
          else []) := by
  unfold generateDocumentsCalls
  rw [List.enum]
  rw [enumFrom_map_getElem?]
  cases hdt : request.document_types[i]? with
  | none => rfl
  | some dt =>
      simp only [Option.map_some']
      rw [generateDocumentCore_calls]

/-- C5: the per-kind sampling parameters are the fixed constants of the
two policy tables (max length 3000 / 2500 / 2000, temperature 0.3 / 0.7 /
0.5 as exact rationals); every request a client call issues carries
exactly the policy parameters of its document type, independently of the
input description and project name; and two slots of one request naming
the same kind issue identical completion requests. -/
theorem generation_parameters_are_fixed_per_kind :
    (getMaxLengthForType .PRD = 3000 ∧
     getMaxLengthForType .WHAT_IS_THIS = 2500 ∧
     getMaxLengthForType .README = 2000) ∧
    (getTemperatureForType .PRD = 3/10 ∧
     getTemperatureForType .WHAT_IS_THIS = 7/10 ∧
     getTemperatureForType .README = 5/10) ∧
    (∀ (st : LMStudioState) (endpoint : CompletionCall → CompletionResult)
        (input_text : String) (project_name : Option String)
        (dt : DocumentType),
      (generateDocumentCore st endpoint input_text dt project_name
          (getMaxLengthForType dt) (getTemperatureForType dt)).2.map
        (fun c => (c.max_tokens, c.temperature)) =
      if st.model_loaded then
        [(getMaxLengthForType dt, getTemperatureForType dt)]
      else []) ∧
    (∀ (st : LMStudioState)
        (endpoints : Nat → CompletionCall → CompletionResult)
        (request : GenerationRequest) (i j : Nat),
      request.document_types[i]? = request.document_types[j]? →
      (generateDocumentsCalls st endpoints request)[i]? =
        (generateDocumentsCalls st endpoints request)[j]?) := by
  refine ⟨⟨rfl, rfl, rfl⟩, ⟨rfl, rfl, rfl⟩, ?_, ?_⟩
  · intro st endpoint input_text project_name dt
    rw [generateDocumentCore_calls]
    cases st.model_loaded <;> simp
  · intro st endpoints request i j hij
    rw [generateDocumentsCalls_getElem, generateDocumentsCalls_getElem, hij]

/-- Witness for C5: a request naming `prd` twice, with different endpoint
behaviour per slot, issues the same completion request in both slots. -/
theorem generation_parameters_are_fixed_per_kind_witness :
    (generateDocumentsCalls ⟨"http://localhost:1234", "local-model", true⟩
        (fun i _ => if i = 0 then .exn "boom" else .response 200 "" ["x"])
        { input_text := "desc", document_types := [.PRD, .PRD],
          project_name := none, additional_context := [] })[0]? =
      (generateDocumentsCalls ⟨"http://localhost:1234", "local-model", true⟩
        (fun i _ => if i = 0 then .exn "boom" else .response 200 "" ["x"])
        { input_text := "desc", document_types := [.PRD, .PRD],
          project_name := none, additional_context := [] })[1]? :=
  (generation_parameters_are_fixed_per_kind).2.2.2
    ⟨"http://localhost:1234", "local-model", true⟩
    (fun i _ => if i = 0 then .exn "boom" else .response 200 "" ["x"])
    { input_text := "desc", document_types := [.PRD, .PRD],
      project_name := none, additional_context := [] }
    0 1 rfl

/-- C6 counterexample: two non-success responses with the same status but
different bodies produce the very same error value, so the raised error
cannot carry the response body (the code raises
`RuntimeError(f"LM Studio API error: 500")` and only logs the body). -/
theorem generation_error_does_not_carry_body :
    generateDocument ⟨"http://localhost:1234", "local-model", true⟩
        (fun _ => .response 500 "body A" []) "desc" .PRD none 3000 (3/10) =
      .error "LM Studio API error: 500" ∧
    generateDocument ⟨"http://localhost:1234", "local-model", true⟩
        (fun _ => .response 500 "body B" []) "desc" .PRD none 3000 (3/10) =
      .error "LM Studio API error: 500" ∧
    "body A" ≠ "body B" :=
  ⟨rfl, rfl, by decide⟩

/-- C6 (amended): on an initialized client, a non-success response makes
the call fail with an error carrying the response status (not the body);
a success response makes it return the first choice's message content
with surrounding whitespace stripped. -/
theorem generate_document_status_error_and_trimmed_success
    (st : LMStudioState) (endpoint : CompletionCall → CompletionResult)
    (input_text : String) (document_type : DocumentType)
    (project_name : Option String) (max_length : Nat) (temperature : ℚ)
    (status : Nat) (body : String) (choices : List String)
    (hl : st.model_loaded = true)
    (hep : endpoint
        { model := st.model_name,
          prompt := getGenerationPrompt input_text document_type
            project_name,
          max_tokens := max_length, temperature := temperature,
          stream := false } = .response status body choices) :
    (status ≠ 200 →
      generateDocument st endpoint input_text document_type project_name
          max_length temperature =
        .error ("LM Studio API error: " ++ toString status)) ∧
    (∀ c rest, status = 200 → choices = c :: rest →
      generateDocument st endpoint input_text document_type project_name
          max_length temperature = .ok (pythonStrip c)) := by
  unfold generateDocument generateDocumentCore
  rw [hl]
  simp only [if_true]
  rw [hep]
  constructor
  · intro hs
    simp [hs]
  · intro c rest hs hc
    subst hs
    subst hc
    rfl

/-- Witness for C6 (amended): a 404 response yields the status-carrying
error; a 200 response with first choice `" hi "` yields `"hi"`. -/
theorem generate_document_status_error_and_trimmed_success_witness :
    generateDocument ⟨"http://localhost:1234", "local-model", true⟩
        (fun _ => .response 404 "not found" []) "desc" .PRD none 3000
        (3/10) = .error "LM Studio API error: 404" ∧
    generateDocument ⟨"http://localhost:1234", "local-model", true⟩
        (fun _ => .response 200 "" [" hi "]) "desc" .PRD none 3000
        (3/10) = .ok "hi" := by
  constructor
  · exact
      (generate_document_status_error_and_trimmed_success
        ⟨"http://localhost:1234", "local-model", true⟩
        (fun _ => .response 404 "not found" []) "desc" .PRD none 3000
        (3/10) 404 "not found" [] rfl rfl).1 (by decide)
  · have :=
      (generate_document_status_error_and_trimmed_success
        ⟨"http://localhost:1234", "local-model", true⟩
        (fun _ => .response 200 "" [" hi "]) "desc" .PRD none 3000
        (3/10) 200 "" [" hi "] rfl rfl).2 " hi " [] rfl rfl
    simpa using this

/-- C7 counterexample: the single-space input has length 1 — inside the
claimed accepted range 1..10,000 — yet the endpoint rejects it with the
empty-input client error, because the handler tests
`not request.input_text.strip()`, not the raw length. -/
theorem generate_endpoint_rejects_whitespace_length_one :
    generateDocumentsEndpoint ⟨"http://localhost:1234", "local-model", true⟩
        (fun _ _ => .exn "unused") 0 0
        { input_text := " ", document_types := [.PRD],
          project_name := none, additional_context := [] } =
      .error (400, "Input text cannot be empty") ∧
    (" ").length = 1 :=
  ⟨rfl, rfl⟩

/-- C7 (amended): the endpoint rejects with the 400 client-error status —
distinct from the 500 internal-server-error status — every request whose
input strips to the empty string (the empty input, and whitespace-only
inputs of any length) and every request longer than 10,000 characters;
it accepts exactly the inputs of length at most 10,000 that contain a
non-whitespace character.  Rejections do not depend on the client state
or endpoint behaviour: validation happens before the orchestrator runs. -/
theorem generate_endpoint_validation (st : LMStudioState)
    (endpoints : Nat → CompletionCall → CompletionResult)
    (now elapsed : ℚ) (request : GenerationRequest) :
    (pythonStrip request.input_text = "" →
      generateDocumentsEndpoint st endpoints now elapsed request =
        .error (400, "Input text cannot be empty")) ∧
    (pythonStrip request.input_text ≠ "" →
      request.input_text.length > 10000 →
      generateDocumentsEndpoint st endpoints now elapsed request =
        .error (400, "Input text too long (max 10,000 characters)")) ∧
    (request.input_text.length > 10000 →
      ∃ detail,
        generateDocumentsEndpoint st endpoints now elapsed request =
          .error (400, detail)) ∧
    (pythonStrip request.input_text ≠ "" →
      request.input_text.length ≤ 10000 →
      generateDocumentsEndpoint st endpoints now elapsed request =
        .ok (generateDocuments st endpoints now elapsed request)) ∧
    (400 : Nat) ≠ internalServerErrorStatus := by
  refine ⟨?_, ?_, ?_, ?_, by decide⟩
  · intro h
    simp [generateDocumentsEndpoint, h]
  · intro h hlen
    simp [generateDocumentsEndpoint, h, hlen]
  · intro hlen
    by_cases h : pythonStrip request.input_text = ""
    · exact ⟨"Input text cannot be empty", by simp [generateDocumentsEndpoint, h]⟩
    · exact ⟨"Input text too long (max 10,000 characters)",
        by simp [generateDocumentsEndpoint, h, hlen]⟩
  · intro h hlen
    simp [generateDocumentsEndpoint, h, Nat.not_lt.mpr hlen]

/-- Witness for C7 (amended): the empty input and a 20,001-character
input are rejected with the two 400 details; the one-character input
`"x"` is accepted. -/
theorem generate_endpoint_validation_witness :
    generateDocumentsEndpoint ⟨"u", "m", true⟩ (fun _ _ => .exn "e") 0 0
        { input_text := "", document_types := [.PRD],
          project_name := none, additional_context := [] } =
      .error (400, "Input text cannot be empty") ∧
    (∃ detail,
      generateDocumentsEndpoint ⟨"u", "m", true⟩ (fun _ _ => .exn "e") 0 0
        { input_text := String.mk (List.replicate 20000 'x'),
          document_types := [.PRD], project_name := none,
          additional_context := [] } =
      .error (400, detail)) ∧
    generateDocumentsEndpoint ⟨"u", "m", true⟩ (fun _ _ => .exn "e") 0 0
        { input_text := "x", document_types := [.PRD],
          project_name := none, additional_context := [] } =
      .ok (generateDocuments ⟨"u", "m", true⟩ (fun _ _ => .exn "e") 0 0
        { input_text := "x", document_types := [.PRD],
          project_name := none, additional_context := [] }) := by
  refine ⟨?_, ?_, ?_⟩
  · exact
      (generate_endpoint_validation ⟨"u", "m", true⟩ (fun _ _ => .exn "e")
        0 0
        { input_text := "", document_types := [.PRD],
          project_name := none, additional_context := [] }).1 rfl
  · have hlen : (String.mk (List.replicate 20000 'x')).length > 10000 := by
      show (List.replicate 20000 'x').length > 10000
      rw [List.length_replicate]
      omega
    exact
      (generate_endpoint_validation ⟨"u", "m", true⟩ (fun _ _ => .exn "e")
        0 0
        { input_text := String.mk (List.replicate 20000 'x'),
          document_types := [.PRD], project_name := none,
          additional_context := [] }).2.2.1 hlen
  · exact
      (generate_endpoint_validation ⟨"u", "m", true⟩ (fun _ _ => .exn "e")
        0 0
        { input_text := "x", document_types := [.PRD],
          project_name := none, additional_context := [] }).2.2.2.1
        (by decide) (by decide)

/-- C8: prompt construction is a pure function — identical arguments
yield the identical string — and every prompt is the kind's fixed leading
text, then the localized project-context phrase (empty when the name is
absent or empty), then the kind's fixed section skeleton with the
description filled in; the parts surrounding the context phrase do not
depend on the project name. -/
theorem prompt_builder_deterministic_and_skeleton_invariant
    (input_text : String) (document_type : DocumentType)
    (project_name : Option String) :
    getGenerationPrompt input_text document_type project_name =
      getGenerationPrompt input_text document_type project_name ∧
    getGenerationPrompt input_text document_type project_name =
      promptPre document_type ++ projectContext document_type project_name
        ++ promptPost document_type input_text := by
  refine ⟨rfl, ?_⟩
  cases document_type <;> rfl

/-- The combined tool's reply: one summary line plus one section per
generated document. -/
theorem handleGenerateDocuments_length (env : OrchestratorEnv)
    (args : ToolArgs) :
    (handleGenerateDocuments env args).length =
      (parseDocTypes
        (args.document_types.getD ["prd", "what_is_this", "readme"])).length
        + 1 := by
  unfold handleGenerateDocuments
  simp [generateDocuments_length]

/-- A single-kind tool reply is always exactly one text content. -/
theorem handleGenerateSingleDocument_length (env : OrchestratorEnv)
    (args : ToolArgs) (doc_type : DocumentType) :
    (handleGenerateSingleDocument env args doc_type).length = 1 := by
  unfold handleGenerateSingleDocument
  dsimp only
  split <;> rfl

/-- Every entry of a combined-tool reply is a text content. -/
theorem handleGenerateDocuments_types (env : OrchestratorEnv)
    (args : ToolArgs) :
    ∀ c ∈ handleGenerateDocuments env args, c.type = "text" := by
  intro c hc
  unfold handleGenerateDocuments at hc
  simp only [List.mem_cons, List.mem_map] at hc
  rcases hc with h | ⟨doc, _, h⟩
  · rw [h]
    rfl
  · rw [← h]
    rfl

/-- Every entry of a single-kind tool reply is a text content. -/
theorem handleGenerateSingleDocument_types (env : OrchestratorEnv)
    (args : ToolArgs) (doc_type : DocumentType) :
    ∀ c ∈ handleGenerateSingleDocument env args doc_type,
      c.type = "text" := by
  intro c hc
  unfold handleGenerateSingleDocument at hc
  dsimp only at hc
  split at hc <;> simp only [List.mem_singleton] at hc <;> rw [hc] <;> rfl

/-- Dispatch analysis of `handle_call_tool` on an initialized service. -/
theorem handleCallTool_cases (env : OrchestratorEnv) (name : String)
    (args : ToolArgs) :
    handleCallTool (some env) name args = handleGenerateDocuments env args ∨
    (∃ dt, handleCallTool (some env) name args =
      handleGenerateSingleDocument env args dt) ∨
    handleCallTool (some env) name args =
      [mkText ("Unknown tool: " ++ name)] := by
  unfold handleCallTool
  by_cases h1 : name = "generate_documents"
  · exact Or.inl (by simp [h1])
  · by_cases h2 : name = "generate_prd"
    · exact Or.inr (Or.inl ⟨.PRD, by simp [h1, h2]⟩)
    · by_cases h3 : name = "generate_readme"
      · exact Or.inr (Or.inl ⟨.README, by simp [h1, h2, h3]⟩)
      · by_cases h4 : name = "generate_overview"
        · exact Or.inr (Or.inl ⟨.WHAT_IS_THIS, by simp [h1, h2, h3, h4]⟩)
        · exact Or.inr (Or.inr (by simp [h1, h2, h3, h4]))

/-- C9: the tool-invocation handler is a total function into lists of
text contents: every call yields a non-empty list of `"text"` contents;
an uninitialized document service yields the single error reply; an
unknown tool name yields the single unknown-tool reply.  (Failures inside
generation are already values by C1/C2's orchestrator, so no exception
reaches the handler in this embedding; the handler's `except` branch that
would wrap one into an error text is unreachable.) -/
theorem handle_call_tool_never_raises
    (document_service : Option OrchestratorEnv) (name : String)
    (args : ToolArgs) :
    1 ≤ (handleCallTool document_service name args).length ∧
    (∀ c ∈ handleCallTool document_service name args, c.type = "text") ∧
    (document_service = none →
      handleCallTool document_service name args =
        [mkText "Error: Document service not initialized"]) ∧
    (∀ env, document_service = some env →
      name ∉ (["generate_documents", "generate_prd", "generate_readme",
        "generate_overview"] : List String) →
      handleCallTool document_service name args =
        [mkText ("Unknown tool: " ++ name)]) := by
  cases document_service with
  | none =>
      refine ⟨?_, ?_, ?_, ?_⟩
      · simp [handleCallTool]
      · intro c hc
        simp only [handleCallTool, List.mem_singleton] at hc
        rw [hc]
        rfl
      · intro _
        rfl
      · intro env h
        cases h
  | some env =>
      refine ⟨?_, ?_, ?_, ?_⟩
      · rcases handleCallTool_cases env name args with h | ⟨dt, h⟩ | h
        · rw [h, handleGenerateDocuments_length]
          omega
        · rw [h, handleGenerateSingleDocument_length]
        · rw [h]
          rfl
      · rcases handleCallTool_cases env name args with h | ⟨dt, h⟩ | h
        · rw [h]
          exact handleGenerateDocuments_types env args
        · rw [h]
          exact handleGenerateSingleDocument_types env args dt
        · rw [h]
          intro c hc
          simp only [List.mem_singleton] at hc
          rw [hc]
          rfl
      · intro h
        cases h
      · intro env' henv hname
        cases henv
        have h1 : name ≠ "generate_documents" := by
          intro hh
          exact hname (by simp [hh])
        have h2 : name ≠ "generate_prd" := by
          intro hh
          exact hname (by simp [hh])
        have h3 : name ≠ "generate_readme" := by
          intro hh
          exact hname (by simp [hh])
        have h4 : name ≠ "generate_overview" := by
          intro hh
          exact hname (by simp [hh])
        unfold handleCallTool
        simp [h1, h2, h3, h4]

/-- Witness for C9: with no service the handler answers the error text;
with a service, the unknown tool name `frobnicate` gets the unknown-tool
text. -/
theorem handle_call_tool_never_raises_witness :
    handleCallTool none "generate_prd" ⟨some "desc", none, none⟩ =
      [mkText "Error: Document service not initialized"] ∧
    handleCallTool
        (some ⟨⟨"u", "m", true⟩, fun _ _ => .exn "e", 0, 0⟩) "frobnicate"
        ⟨some "desc", none, none⟩ =
      [mkText ("Unknown tool: " ++ "frobnicate")] := by
  constructor
  · exact
      (handle_call_tool_never_raises none "generate_prd"
        ⟨some "desc", none, none⟩).2.2.1 rfl
  · exact
      (handle_call_tool_never_raises
        (some ⟨⟨"u", "m", true⟩, fun _ _ => .exn "e", 0, 0⟩) "frobnicate"
        ⟨some "desc", none, none⟩).2.2.2
        ⟨⟨"u", "m", true⟩, fun _ _ => .exn "e", 0, 0⟩ rfl (by decide)

/-- The conversion loop keeps exactly the recognized strings, in order:
reading the produced enum list back as strings gives the filtered
sublist. -/
theorem parseDocTypes_map_value (l : List String) :
    (parseDocTypes l).map DocumentType.value =
      l.filter isRecognizedDocType := by
  induction l with
  | nil => rfl
  | cons s rest ih =>
      by_cases h1 : s = "prd"
      · subst h1
        simpa [parseDocTypes, DocumentType.value, isRecognizedDocType]
          using ih
      · by_cases h2 : s = "what_is_this"
        · subst h2
          simpa [parseDocTypes, DocumentType.value, isRecognizedDocType]
            using ih
        · by_cases h3 : s = "readme"
          · subst h3
            simpa [parseDocTypes, DocumentType.value, isRecognizedDocType]
              using ih
          · simpa [parseDocTypes, isRecognizedDocType, h1, h2, h3]
              using ih

/-- C10: the combined tool silently drops unrecognized document-type
strings — the orchestrator receives exactly the recognized entries
(`prd` / `what_is_this` / `readme`), in their original order, and the
tool reply holds one generated-document section per recognized entry
plus the summary line (so zero document sections when nothing is
recognized). -/
theorem generate_documents_tool_drops_unrecognized_types
    (env : OrchestratorEnv) (args : ToolArgs) :
    (parseDocTypes
        (args.document_types.getD ["prd", "what_is_this", "readme"])).map
        DocumentType.value =
      (args.document_types.getD
        ["prd", "what_is_this", "readme"]).filter isRecognizedDocType ∧
    (handleGenerateDocuments env args).length =
      ((args.document_types.getD
        ["prd", "what_is_this", "readme"]).filter
          isRecognizedDocType).length + 1 := by
  refine ⟨parseDocTypes_map_value _, ?_⟩
  rw [handleGenerateDocuments_length]
  have := congrArg List.length
    (parseDocTypes_map_value
      (args.document_types.getD ["prd", "what_is_this", "readme"]))
  simpa using this

end Documcp
